import Mathlib

/-!
Verification of the nq_indi trading system core (nq_scalper / nq_dashboard).

Shallow embedding conventions:
* Python floats are modelled as rationals (ℚ).  A float that can be NaN at a
  use site (pandas columns before warm-up, missing prior-day levels) is
  modelled as an Option ℚ with none standing for NaN; comparisons against
  NaN are false in pandas/numpy, which the Option match reproduces.
* pandas Series / numpy array pipelines are modelled per-row: a function of
  the list of rows and an index, with rolling windows expressed by
  take/drop on the list.
* Module-level configuration constants from config.py keep their names and
  derivations.
-/

namespace NqIndi

/-! ### config.py -/

def POINT_VALUE : ℚ := 20
def MAX_RISK_PER_CONTRACT : ℚ := 800
def MAX_SL_POINTS : ℚ := MAX_RISK_PER_CONTRACT / POINT_VALUE
def TP1_FIXED_PTS : ℚ := 100
def TP1_MODE : String := "rr"
def RR_RATIO_TP1 : ℚ := 1.5
def MIN_RR : ℚ := 2
def NUM_CONTRACTS : ℕ := 2
def TRAILING_ATR_MULT : ℚ := 2
def USE_SUPERTREND_TRAILING : Bool := true
def WEDNESDAY_LONG_MIN_SCORE : ℚ := 9
def THURSDAY_MIN_SCORE : ℚ := 9
def EUROPE_MIN_SCORE : ℚ := 8.5
def COOLDOWN_BARS : ℤ := 8
def MIN_PRICE_CHANGE : ℚ := 0.25
def PIVOT_LOOKBACK : ℕ := 10
def FIB_LOOKBACK : ℕ := 30
def ROUND_NUMBER_INTERVAL : ℚ := 100

/-! ### risk_manager.py -/

/-- Entry parameters returned by risk_manager.calc_entry (the dict literal). -/
structure Entry where
  entry_price : ℚ
  stop_loss : ℚ
  sl_distance : ℚ
  tp1_price : ℚ
  deriving DecidableEq, Repr

/-- risk_manager.calc_entry: entry parameters for a LONG trade, or none when
the raw stop distance is non-positive.  The sequential reassignments of
sl_distance / tech_sl in the Python body are modelled by shadowing lets. -/
def calc_entry (close tech_sl : ℚ) : Option Entry :=
  let sl_distance := close - tech_sl
  if sl_distance ≤ 0 then none
  else
    let sl_distance1 := if MAX_SL_POINTS < sl_distance then MAX_SL_POINTS else sl_distance
    let tech_sl1 := if MAX_SL_POINTS < sl_distance then close - MAX_SL_POINTS else tech_sl
    if TP1_MODE = "fixed" then
      let tp1_dist := TP1_FIXED_PTS
      let tp1_price := close + tp1_dist
      let max_sl_dist := tp1_dist / MIN_RR
      let sl_distance2 := if max_sl_dist < sl_distance1 then max_sl_dist else sl_distance1
      let tech_sl2 := if max_sl_dist < sl_distance1 then close - max_sl_dist else tech_sl1
      some ⟨close, tech_sl2, sl_distance2, tp1_price⟩
    else
      some ⟨close, tech_sl1, sl_distance1, close + sl_distance1 * RR_RATIO_TP1⟩

/-! ### paper_trader.py entry parameters -/

namespace PaperTrader

/-- Position parameters recorded by PaperTrader.enter_position (the fields
relevant to stop/target computation). -/
structure Position where
  entry_price : ℚ
  sl_price : ℚ
  sl_distance : ℚ
  tp1_price : ℚ
  deriving DecidableEq, Repr

/-- PaperTrader.enter_position: unlike calc_entry, a non-positive stop
distance is replaced by a default 30-point distance and the position is
opened anyway. -/
def enter_position (entry_price tech_sl : ℚ) : Position :=
  let sl_distance := entry_price - tech_sl
  let sl_distance0 := if sl_distance ≤ 0 then 30 else sl_distance
  let tech_sl0 := if sl_distance ≤ 0 then entry_price - 30 else tech_sl
  let sl_distance1 := if MAX_SL_POINTS < sl_distance0 then MAX_SL_POINTS else sl_distance0
  let tech_sl1 := if MAX_SL_POINTS < sl_distance0 then entry_price - MAX_SL_POINTS else tech_sl0
  ⟨entry_price, tech_sl1, sl_distance1, entry_price + sl_distance1 * RR_RATIO_TP1⟩

end PaperTrader

/-! ### signals.py -/

/-- CooldownTracker state: bar index and price of the most recent entry
(initialised to -999 / 0.0 in the constructor). -/
structure CooldownTracker where
  last_trade_bar : ℤ
  last_trade_price : ℚ

/-- CooldownTracker.is_ready: cooldown has expired when a shift/flip override
is present, or COOLDOWN_BARS bars have elapsed, or (with a positive last
entry price) the close has moved at least MIN_PRICE_CHANGE percent. -/
def CooldownTracker.is_ready (cd : CooldownTracker) (bar_idx : ℤ) (close : ℚ)
    (is_shift_override : Bool) : Bool :=
  if is_shift_override then true
  else if COOLDOWN_BARS ≤ bar_idx - cd.last_trade_bar then true
  else if 0 < cd.last_trade_price ∧
      MIN_PRICE_CHANGE ≤ |close - cd.last_trade_price| / cd.last_trade_price * 100 then true
  else false

/-- signals.check_long_signal: the early-return chain of the Python function.
Scores are rationals; the NaN guard of the Python function corresponds to the
driver-level skip of not-yet-available bars and is absent here. -/
def check_long_signal (bar_idx : ℤ) (long_score effective_thresh : ℚ)
    (longs_blocked ema_slope_bull : Bool) (et_dow : ℤ) (cooldown : CooldownTracker)
    (close : ℚ) (is_shift_override : Bool) (session : String) : Bool :=
  if longs_blocked then false
  else if !ema_slope_bull then false
  else if long_score < effective_thresh then false
  else if et_dow = 2 ∧ long_score < WEDNESDAY_LONG_MIN_SCORE then false
  else if et_dow = 3 ∧ long_score < THURSDAY_MIN_SCORE then false
  else if session = "Europe" ∧ long_score < EUROPE_MIN_SCORE then false
  else if !(cooldown.is_ready bar_idx close is_shift_override) then false
  else true

/-- BacktestEngine.run, entry block (the open-position check, the
Maintenance/Closed session exclusion, and the call to check_long_signal). -/
def backtest_entry_check (position_open : Bool) (session : String) (bar_idx : ℤ)
    (long_score effective_thresh : ℚ) (longs_blocked ema_slope_bull : Bool)
    (et_dow : ℤ) (cooldown : CooldownTracker) (close : ℚ)
    (is_shift_override : Bool) : Bool :=
  if position_open then false
  else if session = "Maintenance" ∨ session = "Closed" then false
  else check_long_signal bar_idx long_score effective_thresh longs_blocked
    ema_slope_bull et_dow cooldown close is_shift_override session

/-! ### scoring.py thresholds -/

/-- scoring.precompute_dynamic_thresholds: np.select on the confirmation
count (first matching condition wins, default 9.0). -/
def precompute_dynamic_thresholds (confirmations : ℕ) : ℚ :=
  if 4 ≤ confirmations then 7
  else if confirmations = 3 then 7.5
  else if confirmations = 2 then 8
  else if confirmations = 1 then 8.5
  else 9

/-- scoring.precompute_session_penalty: np.select on the session label
(Europe 1.0, Asia 2.0, US 1.0, default 1.0). -/
def precompute_session_penalty (session : String) : ℚ :=
  if session = "Europe" then 1
  else if session = "Asia" then 2
  else if session = "US" then 1
  else 1

/-- scoring.precompute_atr_adjustments: masked assignments over the ATR
percentile series; none models a NaN percentile (rolling rank below its
minimum sample count), for which every mask is false. -/
def precompute_atr_adjustments (atr_pctile : Option ℚ) : ℚ :=
  match atr_pctile with
  | none => 0
  | some p =>
    if 80 < p then 0.5
    else if 65 < p ∧ p ≤ 80 then 0.25
    else if p < 20 then -0.25
    else 0

/-- scoring.precompute_all_scores, effective threshold line:
long_thresh + session_penalty + atr_adj. -/
def effective_thresh (confirmations : ℕ) (session : String)
    (atr_pctile : Option ℚ) : ℚ :=
  precompute_dynamic_thresholds confirmations + precompute_session_penalty session +
    precompute_atr_adjustments atr_pctile

/-- Modelled from the spec wording of C4 (threshold step function, session
penalty for the three named sessions, volatility-percentile adjustment), for
comparison with the source pipeline. -/
def spec_effective_thresh (confirmations : ℕ) (session : String)
    (atr_pctile : Option ℚ) : ℚ :=
  (if 4 ≤ confirmations then 7
   else if confirmations = 3 then 7.5
   else if confirmations = 2 then 8
   else if confirmations = 1 then 8.5
   else 9) +
  (if session = "Europe" then 1
   else if session = "Asia" then 2
   else if session = "US" then 1
   else 0) +
  (match atr_pctile with
   | none => 0
   | some p => if 80 < p then 0.5 else if 65 < p then 0.25 else if p < 20 then -0.25 else 0)

/-! ### scoring.py technical stop -/

/-- Row of the enriched frame consumed by scoring.precompute_tech_sl. -/
structure ScoreRow where
  Low : ℚ
  Close : ℚ
  atr : ℚ
  st_line : ℚ
  st_bullish : Bool
  deriving Repr

/-- Rolling PIVOT_LOOKBACK-bar minimum of Low with min_periods = 1
(pandas Low.rolling(window=PIVOT_LOOKBACK, min_periods=1).min() at row i). -/
def rolling_min_low (rows : List ScoreRow) (i : ℕ) : ℚ :=
  match ((rows.take (i + 1)).drop (i + 1 - PIVOT_LOOKBACK)).map ScoreRow.Low with
  | [] => 0
  | x :: xs => xs.foldl min x

/-- scoring.precompute_tech_sl at row i: min of the rolling low and the
Supertrend-or-ATR buffer, then floored at Close minus MAX_SL_POINTS. -/
def precompute_tech_sl (rows : List ScoreRow) (i : ℕ) : ℚ :=
  let r := rows.getD i ⟨0, 0, 0, 0, false⟩
  max (min (rolling_min_low rows i)
      (if r.st_bullish then r.st_line else r.Low - r.atr))
    (r.Close - MAX_SL_POINTS)

/-! ### trailing.py -/

/-- trailing.TrailingStop state. -/
structure TrailingStop where
  entry_price : ℚ
  sl_distance : ℚ
  trail_stop : ℚ
  stage : ℕ
  deriving Repr

/-- TrailingStop.__init__: stage 1, trail at breakeven (entry price). -/
def TrailingStop.init (entry_price sl_distance : ℚ) : TrailingStop :=
  ⟨entry_price, sl_distance, entry_price, 1⟩

/-- Per-bar inputs of TrailingStop.update; atr and st_line are Options since
the Python code tests them with np.isnan. -/
structure TrailingBar where
  bar_close : ℚ
  atr : Option ℚ
  st_line : Option ℚ
  st_bullish : Bool
  deriving Repr

/-- trailing.TrailingStop.update: the stage 1→2 transition (with trail lift
to entry + SL×0.5), the stage 2→3 transition, and the stage-3 ATR/Supertrend
trail, each ratcheting the trail with max. -/
def TrailingStop.update (t : TrailingStop) (u : TrailingBar) : TrailingStop :=
  let current_profit := u.bar_close - t.entry_price
  let t1 :=
    if t.stage = 1 ∧ t.sl_distance * 1.5 ≤ current_profit then
      { t with stage := 2,
               trail_stop := max t.trail_stop (t.entry_price + t.sl_distance * 0.5) }
    else t
  let t2 :=
    if t1.stage = 2 ∧ t1.sl_distance * 2 ≤ current_profit then
      { t1 with stage := 3 }
    else t1
  if t2.stage = 3 then
    match u.atr with
    | none => t2
    | some a =>
      let atr_trail := u.bar_close - a * TRAILING_ATR_MULT
      let st_trail :=
        match u.st_line with
        | none => atr_trail
        | some s =>
          if USE_SUPERTREND_TRAILING = true ∧ u.st_bullish = true then s else atr_trail
      let new_trail := max (max atr_trail st_trail) t2.entry_price
      { t2 with trail_stop := max t2.trail_stop new_trail }
  else t2

/-- A sequence of update calls over the bars of a runner's lifetime. -/
def TrailingStop.run (t : TrailingStop) (us : List TrailingBar) : TrailingStop :=
  us.foldl TrailingStop.update t

/-! ### indicators.py session labels -/

/-- indicators.get_session_labels for one bar of local-exchange time: the
Series starts as "Closed" and each mask assignment overwrites in order, so
the last matching mask wins. -/
def get_session_label (hour minute : ℕ) : String :=
  let s := "Closed"
  let s := if 18 ≤ hour ∨ hour < 2 then "Asia" else s
  let s := if 2 ≤ hour ∧ (hour < 9 ∨ (hour = 9 ∧ minute < 30)) then "Europe" else s
  let s := if (hour = 9 ∧ 30 ≤ minute) ∨ (10 ≤ hour ∧ hour < 16) then "US" else s
  let s := if 16 ≤ hour ∧ hour < 17 then "After Hours" else s
  if hour = 17 then "Maintenance" else s

/-! ### patterns.py support/resistance proximity -/

/-- Row of the enriched frame consumed by patterns._precompute_sr_levels;
the prior day/week levels are Options because the merged columns are NaN
before the first completed day/week (numpy comparisons with NaN are false). -/
structure SRRow where
  High : ℚ
  Low : ℚ
  Close : ℚ
  atr : ℚ
  vwap : ℚ
  prev_day_high : Option ℚ
  prev_day_low : Option ℚ
  prev_day_close : Option ℚ
  prev_week_high : Option ℚ
  prev_week_low : Option ℚ
  deriving Repr

/-- Row access with the all-zero default (indices are in range at use). -/
def srRowAt (rows : List SRRow) (i : ℕ) : SRRow :=
  rows.getD i ⟨0, 0, 0, 0, 0, none, none, none, none, none⟩

/-- Rolling FIB_LOOKBACK-bar maximum of High, min_periods = 1. -/
def fib_high (rows : List SRRow) (i : ℕ) : ℚ :=
  match ((rows.take (i + 1)).drop (i + 1 - FIB_LOOKBACK)).map SRRow.High with
  | [] => 0
  | x :: xs => xs.foldl max x

/-- Rolling FIB_LOOKBACK-bar minimum of Low, min_periods = 1. -/
def fib_low (rows : List SRRow) (i : ℕ) : ℚ :=
  match ((rows.take (i + 1)).drop (i + 1 - FIB_LOOKBACK)).map SRRow.Low with
  | [] => 0
  | x :: xs => xs.foldl min x

/-- The 38.2 percent retracement level of the rolling range. -/
def fib_382 (rows : List SRRow) (i : ℕ) : ℚ :=
  fib_high rows i - (fib_high rows i - fib_low rows i) * 0.382

/-- The 50 percent retracement level of the rolling range. -/
def fib_500 (rows : List SRRow) (i : ℕ) : ℚ :=
  fib_high rows i - (fib_high rows i - fib_low rows i) * 0.5

/-- The 61.8 percent retracement level of the rolling range. -/
def fib_618 (rows : List SRRow) (i : ℕ) : ℚ :=
  fib_high rows i - (fib_high rows i - fib_low rows i) * 0.618

/-- np.floor(Close / ROUND_NUMBER_INTERVAL) * ROUND_NUMBER_INTERVAL. -/
def round_down (close : ℚ) : ℚ :=
  (⌊close / ROUND_NUMBER_INTERVAL⌋ : ℤ) * ROUND_NUMBER_INTERVAL

/-- Fibonacci proximity mask: the source uses only the 61.8 and 50 percent
levels here (fib_382 is computed but not part of the mask). -/
def near_fib (rows : List SRRow) (i : ℕ) : Bool :=
  let r := srRowAt rows i
  decide (|r.Close - fib_618 rows i| < r.atr * 0.4) ||
    decide (|r.Close - fib_500 rows i| < r.atr * 0.4)

/-- Round-number proximity mask. -/
def near_round (rows : List SRRow) (i : ℕ) : Bool :=
  let r := srRowAt rows i
  decide (|r.Close - round_down r.Close| < r.atr * 0.4)

/-- Session VWAP proximity mask. -/
def near_vwap (rows : List SRRow) (i : ℕ) : Bool :=
  let r := srRowAt rows i
  decide (|r.Close - r.vwap| < r.atr * 0.4)

/-- Proximity to an optional merged level (false when the level is NaN). -/
def near_opt (r : SRRow) (lvl : Option ℚ) : Bool :=
  match lvl with
  | none => false
  | some v => decide (|r.Close - v| < r.atr * 0.4)

/-- patterns near_support column: fib, round number, VWAP, prior day low,
prior week low. -/
def near_support (rows : List SRRow) (i : ℕ) : Bool :=
  near_fib rows i || near_round rows i || near_vwap rows i ||
    near_opt (srRowAt rows i) (srRowAt rows i).prev_day_low ||
    near_opt (srRowAt rows i) (srRowAt rows i).prev_week_low

/-- patterns near_resist column: fib, round number, VWAP, prior day high,
prior week high. -/
def near_resist (rows : List SRRow) (i : ℕ) : Bool :=
  near_fib rows i || near_round rows i || near_vwap rows i ||
    near_opt (srRowAt rows i) (srRowAt rows i).prev_day_high ||
    near_opt (srRowAt rows i) (srRowAt rows i).prev_week_high

/-- Probe bar for the 38.2 percent retracement: rolling range high 1000 and
low 0, close exactly on the 38.2 level (618), ATR 10, VWAP far away at 800,
no prior day/week levels yet. -/
def fibProbeRow : SRRow := ⟨1000, 0, 618, 10, 800, none, none, none, none, none⟩

/-- Probe bar sitting on the 50 percent retracement (close 500) of the same
range. -/
def fibWitnessRow : SRRow := ⟨1000, 0, 500, 10, 800, none, none, none, none, none⟩

/-! ### mtf.py — resample, shift(1), merge_asof backward

The pipeline in build_mtf resamples the base bars into fixed buckets
(bucket key = timestamp divided by the bucket size), drops empty buckets,
computes per-bucket OHLCV aggregates, derives indicator columns on the
coarse frame (every such column at coarse row j is a function of coarse
rows 0..j — EMAs and shift(1) prior-bucket levels are causal), shifts the
coarse columns down one row (merge_mtf), and as-of-backward joins them onto
the base index.  merge_mtf_at expresses the composition for one base bar at
time t and one coarse feature map: the join matches the latest coarse row
whose bucket start is at or before t, and the shifted value there is the
feature of the previous nonempty bucket, i.e. the feature applied to the
aggregates of all nonempty buckets strictly before the matched one (none
when there is no such previous bucket, mirroring the NaN of shift(1) or of
a failed backward match). -/

/-- A base bar (timestamp in base-interval units plus OHLCV). -/
structure MtfBar where
  ts : ℕ
  Open : ℚ
  High : ℚ
  Low : ℚ
  Close : ℚ
  Volume : ℚ
  deriving Repr

/-- One resampled bucket: Open first, High max, Low min, Close last,
Volume sum (the agg dict of build_mtf). -/
structure MtfAgg where
  Open : ℚ
  High : ℚ
  Low : ℚ
  Close : ℚ
  Volume : ℚ
  deriving Repr

/-- OHLCV aggregation of one bucket's bars (buckets used are nonempty). -/
def resample_agg (bars : List MtfBar) : MtfAgg :=
  match bars with
  | [] => ⟨0, 0, 0, 0, 0⟩
  | b :: rest =>
    { Open := b.Open
      High := rest.foldl (fun acc x => max acc x.High) b.High
      Low := rest.foldl (fun acc x => min acc x.Low) b.Low
      Close := (rest.foldl (fun _ x => x) b).Close
      Volume := rest.foldl (fun acc x => acc + x.Volume) b.Volume }

/-- The bars falling in bucket k (bucket key = ts / size). -/
def bucketBars (size : ℕ) (bars : List MtfBar) (k : ℕ) : List MtfBar :=
  bars.filter (fun b => b.ts / size == k)

/-- Whether bucket k is nonempty (kept by dropna after resampling). -/
def presentKey (size : ℕ) (bars : List MtfBar) (k : ℕ) : Bool :=
  bars.any (fun b => b.ts / size == k)

/-- The sorted nonempty bucket keys whose bucket start is at or before t
(the coarse rows eligible for the backward as-of match at base time t). -/
def coarseKeysUpTo (size : ℕ) (bars : List MtfBar) (t : ℕ) : List ℕ :=
  (List.range (t / size + 1)).filter (presentKey size bars)

/-- The coarse value attached to the base bar at time t by
merge_mtf (shift(1) then merge_asof backward), for a causal coarse feature
map feat applied to the aggregate prefix of the matched row's predecessor. -/
def merge_mtf_at {α : Type} (size : ℕ) (feat : List MtfAgg → α)
    (bars : List MtfBar) (t : ℕ) : Option α :=
  let pre := coarseKeysUpTo size bars t
  if pre.length ≤ 1 then none
  else some (feat (pre.dropLast.map (fun k => resample_agg (bucketBars size bars k))))

/-- Three demo bars for the merge witness (bucket size 4: buckets 0, 1, 2). -/
def mtfDemoBars : List MtfBar :=
  [⟨0, 1, 1, 1, 1, 1⟩, ⟨5, 2, 2, 2, 2, 1⟩, ⟨9, 3, 3, 3, 3, 1⟩]

/-! ### paper_trader.py entry check -/

namespace PaperTrader

/-- PaperTrader.check_entry: the live/paper entry gate.  The signal flag is
computed upstream (indicator_engine) as long_score at or above the effective
threshold; dow is the parsed weekday (none when timestamp parsing fails);
bar_counter is the trader's own counter before this call increments it.
Note the cooldown block has no shift/flip override. -/
def check_entry (position_open : Bool) (signal longs_blocked ema_slope_bull : Bool)
    (long_score : ℚ) (session : String) (dow : Option ℤ)
    (bar_counter cooldown_bar : ℤ) (cooldown_price close : ℚ) : Bool :=
  if position_open then false
  else if !signal then false
  else if longs_blocked then false
  else if !ema_slope_bull then false
  else if session = "Maintenance" ∨ session = "Closed" then false
  else if session = "Europe" ∧ long_score < EUROPE_MIN_SCORE then false
  else if dow = some 2 ∧ long_score < WEDNESDAY_LONG_MIN_SCORE then false
  else if dow = some 3 ∧ long_score < THURSDAY_MIN_SCORE then false
  else
    let bars_elapsed := (bar_counter + 1) - cooldown_bar
    if bars_elapsed < COOLDOWN_BARS ∧ 0 < cooldown_price ∧
        |close - cooldown_price| / cooldown_price * 100 < MIN_PRICE_CHANGE then false
    else true

end PaperTrader

end NqIndi

namespace NqIndi

/-- C6: for a positive raw stop distance, calc_entry caps the stop distance at
40 points, places the stop at entry minus the capped distance, and the take
profit at entry plus the capped distance times 1.5. -/
theorem calc_entry_caps_and_targets (close tech_sl : ℚ) (h : 0 < close - tech_sl)
    (e : Entry) (he : calc_entry close tech_sl = some e) :
    e.entry_price = close ∧ e.sl_distance ≤ 40 ∧
    e.stop_loss = close - e.sl_distance ∧
    e.tp1_price = close + e.sl_distance * 1.5 := by
  have hmode : ¬ (TP1_MODE = "fixed") := by decide
  have h40 : MAX_SL_POINTS = 40 := by
    norm_num [MAX_SL_POINTS, MAX_RISK_PER_CONTRACT, POINT_VALUE]
  have hrr : RR_RATIO_TP1 = 1.5 := by norm_num [RR_RATIO_TP1]
  simp only [calc_entry, if_neg hmode, if_neg (not_le_of_lt h), h40, hrr] at he
  split_ifs at he with hc
  · injection he with he
    subst he
    refine ⟨rfl, le_refl _, rfl, rfl⟩
  · injection he with he
    subst he
    exact ⟨rfl, le_of_not_lt hc, by ring, rfl⟩

/-- Witness for calc_entry_caps_and_targets at close = 100, tech_sl = 30
(raw distance 70 capped to 40). -/
theorem calc_entry_caps_and_targets_witness :
    (0 : ℚ) < 100 - 30 ∧
    ((100 : ℚ) - 30 ≤ 0 → False) ∧
    (Entry.mk 100 60 40 160).entry_price = 100 ∧
    (Entry.mk 100 60 40 160).sl_distance ≤ 40 ∧
    (Entry.mk 100 60 40 160).stop_loss = 100 - (Entry.mk 100 60 40 160).sl_distance ∧
    (Entry.mk 100 60 40 160).tp1_price = 100 + (Entry.mk 100 60 40 160).sl_distance * 1.5 := by
  refine ⟨by norm_num, by norm_num, ?_⟩
  have h := calc_entry_caps_and_targets 100 30 (by norm_num) (Entry.mk 100 60 40 160)
    (by
      norm_num [calc_entry, TP1_MODE, MAX_SL_POINTS, MAX_RISK_PER_CONTRACT, POINT_VALUE,
        RR_RATIO_TP1]
      exact fun hcontra => absurd hcontra (by decide))
  exact ⟨h.1, h.2.1, h.2.2.1, h.2.2.2⟩

/-- C7 (failing input): with a degenerate stop (technical stop equal to the
close, so distance 0), the simulation path rejects the entry
(calc_entry returns none) but the paper path opens a position anyway with a
substituted 30-point stop distance. -/
theorem degenerate_stop_paper_divergence :
    calc_entry 20000 20000 = none ∧
    (PaperTrader.enter_position 20000 20000).sl_distance = 30 ∧
    (PaperTrader.enter_position 20000 20000).sl_price = 20000 - 30 := by
  refine ⟨?_, ?_, ?_⟩ <;>
    norm_num [calc_entry, PaperTrader.enter_position, MAX_SL_POINTS,
      MAX_RISK_PER_CONTRACT, POINT_VALUE]

/-- Helper: the percentage-move expression is non-positive whenever the
reference price is non-positive (division by zero yields zero for ℚ). -/
theorem pct_move_nonpos (p c : ℚ) (hp : p ≤ 0) : |c - p| / p * 100 ≤ 0 := by
  rcases hp.lt_or_eq with hneg | h0
  · have h1 : |c - p| / p ≤ 0 := div_nonpos_of_nonneg_of_nonpos (abs_nonneg _) hp
    have h2 := mul_le_mul_of_nonneg_right h1 (by norm_num : (0:ℚ) ≤ 100)
    simpa using h2
  · rw [h0, div_zero, zero_mul]

/-- Helper: characterisation of CooldownTracker.is_ready as the disjunction
stated in the spec (the positive-price guard of the code is redundant,
because the percentage-move expression cannot reach 0.25 otherwise). -/
theorem is_ready_iff (cd : CooldownTracker) (bar_idx : ℤ) (close : ℚ) (ov : Bool) :
    cd.is_ready bar_idx close ov = true ↔
      (ov = true ∨ (8 : ℤ) ≤ bar_idx - cd.last_trade_bar ∨
       (0.25 : ℚ) ≤ |close - cd.last_trade_price| / cd.last_trade_price * 100) := by
  unfold CooldownTracker.is_ready
  simp only [COOLDOWN_BARS, MIN_PRICE_CHANGE]
  split_ifs with h1 h2 h3
  · simp [h1]
  · simp [h2]
  · simp [h3.2]
  · simp only [Bool.false_eq_true, false_iff]
    push_neg
    refine ⟨by simpa using h1, not_le.mp h2, ?_⟩
    by_cases hp : 0 < cd.last_trade_price
    · exact not_le.mp fun hpct => h3 ⟨hp, hpct⟩
    · have := pct_move_nonpos cd.last_trade_price close (not_lt.mp hp)
      linarith

/-- C2: the backtest entry decision fires exactly when all the listed
conditions hold: no open position, score at or above the effective
threshold, longs not blocked, EMA slope rising, session not
Maintenance/Closed, the Europe floor 8.5, the Wednesday/Thursday floor 9.0,
and the cooldown disjunction (8 bars elapsed, 0.25 percent price move, or a
bullish shift/flip override). -/
theorem entry_gate_iff (position_open : Bool) (session : String) (bar_idx : ℤ)
    (long_score effective_thresh : ℚ) (longs_blocked ema_slope_bull : Bool)
    (et_dow : ℤ) (cd : CooldownTracker) (close : ℚ) (ov : Bool) :
    backtest_entry_check position_open session bar_idx long_score effective_thresh
        longs_blocked ema_slope_bull et_dow cd close ov = true ↔
      (position_open = false ∧
       effective_thresh ≤ long_score ∧
       longs_blocked = false ∧
       ema_slope_bull = true ∧
       session ≠ "Maintenance" ∧ session ≠ "Closed" ∧
       (session = "Europe" → (8.5 : ℚ) ≤ long_score) ∧
       ((et_dow = 2 ∨ et_dow = 3) → (9 : ℚ) ≤ long_score) ∧
       ((8 : ℤ) ≤ bar_idx - cd.last_trade_bar ∨
        (0.25 : ℚ) ≤ |close - cd.last_trade_price| / cd.last_trade_price * 100 ∨
        ov = true)) := by
  have hready := is_ready_iff cd bar_idx close ov
  unfold backtest_entry_check check_long_signal
  simp only [WEDNESDAY_LONG_MIN_SCORE, THURSDAY_MIN_SCORE, EUROPE_MIN_SCORE]
  split_ifs with h1 h2 h3 h4 h5 h6 h7 h8 h9
  · simp only [Bool.false_eq_true, false_iff]
    rintro ⟨hpos, -⟩
    simp [h1] at hpos
  · simp only [Bool.false_eq_true, false_iff]
    rintro ⟨-, -, -, -, hM, hC, -⟩
    rcases h2 with h | h
    · exact hM h
    · exact hC h
  · simp only [Bool.false_eq_true, false_iff]
    rintro ⟨-, -, hblocked, -⟩
    simp [h3] at hblocked
  · simp only [Bool.false_eq_true, false_iff]
    rintro ⟨-, -, -, hslope, -⟩
    simp [hslope] at h4
  · simp only [Bool.false_eq_true, false_iff]
    rintro ⟨-, hscore, -⟩
    exact absurd hscore (not_le.mpr h5)
  · simp only [Bool.false_eq_true, false_iff]
    rintro ⟨-, -, -, -, -, -, -, hDow, -⟩
    exact absurd (hDow (Or.inl h6.1)) (not_le.mpr h6.2)
  · simp only [Bool.false_eq_true, false_iff]
    rintro ⟨-, -, -, -, -, -, -, hDow, -⟩
    exact absurd (hDow (Or.inr h7.1)) (not_le.mpr h7.2)
  · simp only [Bool.false_eq_true, false_iff]
    rintro ⟨-, -, -, -, -, -, hEur, -⟩
    exact absurd (hEur h8.1) (not_le.mpr h8.2)
  · simp only [Bool.false_eq_true, false_iff]
    rintro ⟨-, -, -, -, -, -, -, -, hCool⟩
    have : cd.is_ready bar_idx close ov = true := hready.mpr (by
      rcases hCool with h | h | h
      exacts [Or.inr (Or.inl h), Or.inr (Or.inr h), Or.inl h])
    simp [this] at h9
  · simp only [true_iff]
    have hpos : position_open = false := by
      revert h1; cases position_open <;> simp
    have hblocked : longs_blocked = false := by
      revert h3; cases longs_blocked <;> simp
    have hslope : ema_slope_bull = true := by
      revert h4; cases ema_slope_bull <;> simp
    push_neg at h2
    refine ⟨hpos, not_lt.mp h5, hblocked, hslope, h2.1, h2.2, ?_, ?_, ?_⟩
    · intro hE
      rcases not_and_or.mp h8 with h | h
      · exact absurd hE h
      · exact not_lt.mp h
    · rintro (hd | hd)
      · rcases not_and_or.mp h6 with h | h
        · exact absurd hd h
        · exact not_lt.mp h
      · rcases not_and_or.mp h7 with h | h
        · exact absurd hd h
        · exact not_lt.mp h
    · have hr : cd.is_ready bar_idx close ov = true := by
        revert h9; cases cd.is_ready bar_idx close ov <;> simp
      rcases hready.mp hr with h | h | h
      exacts [Or.inr (Or.inr h), Or.inl h, Or.inr (Or.inl h)]

/-- C4: for bars in the Europe, Asia, or US session, the effective threshold
from the scoring pipeline equals the spec formula: the confirmation-count
step function plus the session penalty plus the volatility-percentile
adjustment (zero for a not-yet-valid percentile). -/
theorem effective_thresh_matches_spec (c : ℕ) (s : String) (p : Option ℚ)
    (hs : s = "Europe" ∨ s = "Asia" ∨ s = "US") :
    effective_thresh c s p = spec_effective_thresh c s p := by
  have hpen : precompute_session_penalty s =
      (if s = "Europe" then 1 else if s = "Asia" then 2 else if s = "US" then 1 else 0) := by
    rcases hs with rfl | rfl | rfl <;> simp [precompute_session_penalty]
  have hadj : precompute_atr_adjustments p =
      (match p with
       | none => (0:ℚ)
       | some x => if 80 < x then 0.5 else if 65 < x then 0.25 else if x < 20 then -0.25 else 0) := by
    rcases p with _ | x
    · rfl
    · simp only [precompute_atr_adjustments]
      by_cases h80 : (80:ℚ) < x
      · simp [h80]
      · by_cases h65 : (65:ℚ) < x
        · simp [h80, h65, not_lt.mp h80]
        · simp [h80, h65]
  unfold effective_thresh spec_effective_thresh precompute_dynamic_thresholds
  rw [hpen, hadj]

/-- Witness for effective_thresh_matches_spec at three confirmations, the
Asia session, and a percentile of 85 (threshold 7.5 + 2.0 + 0.5 = 10). -/
theorem effective_thresh_matches_spec_witness :
    (("Asia" : String) = "Europe" ∨ ("Asia" : String) = "Asia" ∨ ("Asia" : String) = "US") ∧
    effective_thresh 3 "Asia" (some 85) = spec_effective_thresh 3 "Asia" (some 85) ∧
    effective_thresh 3 "Asia" (some 85) = 10 := by
  refine ⟨Or.inr (Or.inl rfl),
    effective_thresh_matches_spec 3 "Asia" (some 85) (Or.inr (Or.inl rfl)), ?_⟩
  have h1 : precompute_session_penalty "Asia" = 2 := by simp [precompute_session_penalty]
  have h2 : precompute_dynamic_thresholds 3 = 7.5 := by
    norm_num [precompute_dynamic_thresholds]
  have h3 : precompute_atr_adjustments (some 85) = 0.5 := by
    norm_num [precompute_atr_adjustments]
  unfold effective_thresh
  rw [h1, h2, h3]
  norm_num

/-- C5: the technical stop at each bar is the minimum of the rolling
10-bar low and the Supertrend-line-or-low-minus-ATR buffer, floored at
close minus 40 points, and is therefore always at least close minus 40. -/
theorem tech_sl_floor (rows : List ScoreRow) (i : ℕ) (hi : i < rows.length) :
    (rows.get ⟨i, hi⟩).Close - 40 ≤ precompute_tech_sl rows i ∧
    precompute_tech_sl rows i =
      max (min (rolling_min_low rows i)
          (if (rows.get ⟨i, hi⟩).st_bullish then (rows.get ⟨i, hi⟩).st_line
           else (rows.get ⟨i, hi⟩).Low - (rows.get ⟨i, hi⟩).atr))
        ((rows.get ⟨i, hi⟩).Close - 40) ∧
    PIVOT_LOOKBACK = 10 := by
  have hget : rows.getD i ⟨0, 0, 0, 0, false⟩ = rows.get ⟨i, hi⟩ := by
    rw [List.get_eq_getElem]
    exact List.getD_eq_getElem rows _ hi
  have h40 : MAX_SL_POINTS = 40 := by
    norm_num [MAX_SL_POINTS, MAX_RISK_PER_CONTRACT, POINT_VALUE]
  unfold precompute_tech_sl
  rw [hget, h40]
  exact ⟨le_max_right _ _, rfl, rfl⟩

/-- Witness for tech_sl_floor on a one-row series (Low 5, Close 100, ATR 2,
Supertrend line 50, bullish): the stop is 60 = max (min 5 50) (100 - 40). -/
theorem tech_sl_floor_witness :
    0 < ([⟨5, 100, 2, 50, true⟩] : List ScoreRow).length ∧
    (([⟨5, 100, 2, 50, true⟩] : List ScoreRow).get ⟨0, Nat.one_pos⟩).Close - 40 ≤
      precompute_tech_sl [⟨5, 100, 2, 50, true⟩] 0 ∧
    precompute_tech_sl [⟨5, 100, 2, 50, true⟩] 0 = 60 := by
  refine ⟨Nat.one_pos, (tech_sl_floor [⟨5, 100, 2, 50, true⟩] 0 Nat.one_pos).1, ?_⟩
  norm_num [precompute_tech_sl, rolling_min_low, PIVOT_LOOKBACK, MAX_SL_POINTS,
    MAX_RISK_PER_CONTRACT, POINT_VALUE]

/-- Helper: one TrailingStop.update step never decreases stage or trail, and
the new stage is either unchanged, 2, or 3. -/
theorem TrailingStop.update_step (t : TrailingStop) (u : TrailingBar) :
    t.stage ≤ (t.update u).stage ∧ t.trail_stop ≤ (t.update u).trail_stop ∧
    ((t.update u).stage = t.stage ∨ (t.update u).stage = 2 ∨ (t.update u).stage = 3) := by
  rcases u with ⟨bc, atr, stl, stb⟩
  cases atr <;> cases stl <;>
    unfold TrailingStop.update <;>
    dsimp only <;>
    split_ifs <;>
    refine ⟨?_, ?_, ?_⟩ <;>
    simp_all

/-- Helper: folding update over a bar list never decreases stage or trail,
and leaves the stage unchanged or at 2 or 3. -/
theorem TrailingStop.run_step (t : TrailingStop) (us : List TrailingBar) :
    t.stage ≤ (t.run us).stage ∧ t.trail_stop ≤ (t.run us).trail_stop ∧
    ((t.run us).stage = t.stage ∨ (t.run us).stage = 2 ∨ (t.run us).stage = 3) := by
  induction us generalizing t with
  | nil => exact ⟨le_refl _, le_refl _, Or.inl rfl⟩
  | cons u us ih =>
    have hrun : t.run (u :: us) = (t.update u).run us := rfl
    have hstep := TrailingStop.update_step t u
    have htail := ih (t.update u)
    rw [hrun]
    refine ⟨le_trans hstep.1 htail.1, le_trans hstep.2.1 htail.2.1, ?_⟩
    rcases htail.2.2 with h | h | h
    · rcases hstep.2.2 with h' | h' | h'
      · exact Or.inl (h.trans h')
      · exact Or.inr (Or.inl (h.trans h'))
      · exact Or.inr (Or.inr (h.trans h'))
    · exact Or.inr (Or.inl h)
    · exact Or.inr (Or.inr h)

/-- C8: over any sequence of update calls on a TrailingStop started at
breakeven, the stage is monotonically non-decreasing and stays in 1..3, and
the trail price is monotonically non-decreasing. -/
theorem trailing_stop_monotone (entry_price sl_distance : ℚ)
    (us : List TrailingBar) (i j : ℕ) (hij : i ≤ j) :
    ((TrailingStop.init entry_price sl_distance).run (us.take i)).stage ≤
      ((TrailingStop.init entry_price sl_distance).run (us.take j)).stage ∧
    ((TrailingStop.init entry_price sl_distance).run (us.take i)).trail_stop ≤
      ((TrailingStop.init entry_price sl_distance).run (us.take j)).trail_stop ∧
    1 ≤ ((TrailingStop.init entry_price sl_distance).run (us.take j)).stage ∧
    ((TrailingStop.init entry_price sl_distance).run (us.take j)).stage ≤ 3 := by
  have hsplit : us.take j = us.take i ++ ((us.drop i).take (j - i)) := by
    conv_lhs => rw [show j = i + (j - i) by omega]
    rw [List.take_add]
  have hruns : (TrailingStop.init entry_price sl_distance).run (us.take j) =
      ((TrailingStop.init entry_price sl_distance).run (us.take i)).run
        ((us.drop i).take (j - i)) := by
    rw [hsplit]
    exact List.foldl_append _ _ _ _
  have hseg := TrailingStop.run_step
    ((TrailingStop.init entry_price sl_distance).run (us.take i)) ((us.drop i).take (j - i))
  have hfull := TrailingStop.run_step
    (TrailingStop.init entry_price sl_distance) (us.take j)
  have hinit : (TrailingStop.init entry_price sl_distance).stage = 1 := rfl
  refine ⟨hruns ▸ hseg.1, hruns ▸ hseg.2.1, ?_, ?_⟩
  · exact le_trans (le_of_eq hinit.symm) hfull.1
  · rcases hfull.2.2 with h | h | h <;> omega

/-- Witness for trailing_stop_monotone: entry 100, stop distance 10, one bar
closing at 130 with ATR 4 and a bullish Supertrend line at 120, comparing
the states after 0 and after 1 updates. -/
theorem trailing_stop_monotone_witness :
    0 ≤ 1 ∧
    (((TrailingStop.init 100 10).run ([⟨130, some 4, some 120, true⟩].take 0)).stage ≤
      ((TrailingStop.init 100 10).run ([⟨130, some 4, some 120, true⟩].take 1)).stage ∧
    ((TrailingStop.init 100 10).run ([⟨130, some 4, some 120, true⟩].take 0)).trail_stop ≤
      ((TrailingStop.init 100 10).run ([⟨130, some 4, some 120, true⟩].take 1)).trail_stop ∧
    1 ≤ ((TrailingStop.init 100 10).run ([⟨130, some 4, some 120, true⟩].take 1)).stage ∧
    ((TrailingStop.init 100 10).run ([⟨130, some 4, some 120, true⟩].take 1)).stage ≤ 3) :=
  ⟨Nat.zero_le 1, trailing_stop_monotone 100 10 [⟨130, some 4, some 120, true⟩] 0 1 (Nat.zero_le 1)⟩

/-- C10: the five session masks cover every local-exchange hour 0..23, so
the label is always one of the five session names and the default "Closed"
is never produced (hence Closed-session exclusion branches cannot fire). -/
theorem session_labels_cover (hour minute : ℕ) (hh : hour < 24) :
    get_session_label hour minute ≠ "Closed" ∧
    get_session_label hour minute ∈
      (["Asia", "Europe", "US", "After Hours", "Maintenance"] : List String) := by
  unfold get_session_label
  rcases Nat.lt_or_ge minute 30 with hm | hm
  · have hm' : ¬ 30 ≤ minute := Nat.not_le.mpr hm
    interval_cases hour <;> simp [hm, hm']
  · have hm' : ¬ minute < 30 := Nat.not_lt.mpr hm
    interval_cases hour <;> simp [hm, hm']

/-- Witness for session_labels_cover at 09:45 local time (the US session). -/
theorem session_labels_cover_witness :
    9 < 24 ∧
    (get_session_label 9 45 ≠ "Closed" ∧
     get_session_label 9 45 ∈
       (["Asia", "Europe", "US", "After Hours", "Maintenance"] : List String)) ∧
    get_session_label 9 45 = "US" :=
  ⟨by norm_num, session_labels_cover 9 45 (by norm_num), rfl⟩

/-- C9 (counterexample): a bar whose close (618) sits exactly on the 38.2
percent retracement of the rolling range (high 1000, low 0) and within 0.4
of ATR of no other tracked level has near_support and near_resist false, so
proximity to the 38.2 percent level alone does not set the flags. -/
theorem near_support_misses_fib382 :
    |(618 : ℚ) - fib_382 [fibProbeRow] 0| < (10 : ℚ) * 0.4 ∧
    near_support [fibProbeRow] 0 = false ∧
    near_resist [fibProbeRow] 0 = false := by
  have hH : fib_high [fibProbeRow] 0 = 1000 := rfl
  have hL : fib_low [fibProbeRow] 0 = 0 := rfl
  have hrow : srRowAt [fibProbeRow] 0 = fibProbeRow := rfl
  have h382 : fib_382 [fibProbeRow] 0 = 618 := by rw [fib_382, hH, hL]; norm_num
  have h500 : fib_500 [fibProbeRow] 0 = 500 := by rw [fib_500, hH, hL]; norm_num
  have h618 : fib_618 [fibProbeRow] 0 = 382 := by rw [fib_618, hH, hL]; norm_num
  refine ⟨by rw [h382]; norm_num, ?_, ?_⟩ <;>
  · simp only [near_support, near_resist, near_fib, near_round, near_vwap,
      hrow, h500, h618, Bool.or_eq_false_iff, decide_eq_false_iff_not]
    norm_num [fibProbeRow, near_opt, round_down, ROUND_NUMBER_INTERVAL]

/-- C9 (amended): the near-support and near-resistance flags are set
whenever the close is within 0.4 of ATR of the 61.8 or 50 percent
retracement of the rolling range (the 38.2 percent level is computed but
not part of the proximity masks). -/
theorem near_flags_from_fib (rows : List SRRow) (i : ℕ)
    (h : |(srRowAt rows i).Close - fib_618 rows i| < (srRowAt rows i).atr * 0.4 ∨
         |(srRowAt rows i).Close - fib_500 rows i| < (srRowAt rows i).atr * 0.4) :
    near_support rows i = true ∧ near_resist rows i = true := by
  unfold near_support near_resist near_fib
  rcases h with h | h <;> simp [h]

/-- Witness for near_flags_from_fib: close 500 on the 50 percent
retracement of the range high 1000 / low 0, ATR 10. -/
theorem near_flags_from_fib_witness :
    (|(srRowAt [fibWitnessRow] 0).Close - fib_618 [fibWitnessRow] 0| <
      (srRowAt [fibWitnessRow] 0).atr * 0.4 ∨
     |(srRowAt [fibWitnessRow] 0).Close - fib_500 [fibWitnessRow] 0| <
      (srRowAt [fibWitnessRow] 0).atr * 0.4) ∧
    (near_support [fibWitnessRow] 0 = true ∧
     near_resist [fibWitnessRow] 0 = true) := by
  have hH : fib_high [fibWitnessRow] 0 = 1000 := rfl
  have hL : fib_low [fibWitnessRow] 0 = 0 := rfl
  have hrow : srRowAt [fibWitnessRow] 0 = fibWitnessRow := rfl
  have hfib : |(srRowAt [fibWitnessRow] 0).Close - fib_500 [fibWitnessRow] 0| <
      (srRowAt [fibWitnessRow] 0).atr * 0.4 := by
    rw [fib_500, hH, hL, hrow]
    norm_num [fibWitnessRow]
  exact ⟨Or.inr hfib, near_flags_from_fib _ 0 (Or.inr hfib)⟩

/-- C1 (divergence): the two entry paths disagree on the same bar facts.
With a previous entry one bar earlier at the same price (cooldown active,
no price move) and a bullish shift override present on the current bar, the
backtest gate fires (the override bypasses the cooldown) while
PaperTrader.check_entry rejects, because its cooldown block has no override
(the shift/flip flags are not even part of the signal payload). -/
theorem paper_vs_backtest_divergence :
    backtest_entry_check false "US" 100 9.5 8 false true 0
        ⟨99, 15000⟩ 15000 true = true ∧
    PaperTrader.check_entry false (decide ((8 : ℚ) ≤ 9.5)) false true 9.5 "US"
        (some 0) 99 99 15000 15000 = false := by
  constructor <;>
    (norm_num [backtest_entry_check, check_long_signal, CooldownTracker.is_ready,
      PaperTrader.check_entry, COOLDOWN_BARS, MIN_PRICE_CHANGE, EUROPE_MIN_SCORE,
      WEDNESDAY_LONG_MIN_SCORE, THURSDAY_MIN_SCORE]
     try decide)

/-- C3: the multi-timeframe merge is lookahead-free: for a chronologically
sorted base series, the coarse value attached to bar i by the shifted
backward as-of join is unchanged when the merge is rerun on just the
prefix of bars up to and including bar i, for every bucket size and every
causal coarse feature map. -/
theorem merge_mtf_lookahead_free {α : Type} (size : ℕ) (feat : List MtfAgg → α)
    (bars : List MtfBar) (hs : bars.Pairwise (fun a b => a.ts < b.ts))
    (i : ℕ) (hi : i < bars.length) :
    merge_mtf_at size feat (bars.take (i + 1)) (bars.get ⟨i, hi⟩).ts =
      merge_mtf_at size feat bars (bars.get ⟨i, hi⟩).ts := by
  set t := (bars.get ⟨i, hi⟩).ts with ht
  set K := t / size with hK
  have htake_succ : bars.take (i + 1) = bars.take i ++ [bars.get ⟨i, hi⟩] := by
    rw [List.take_succ]
    congr
    rw [List.getElem?_eq_getElem hi]
    simp [List.get_eq_getElem]
  have hitake : bars.get ⟨i, hi⟩ ∈ bars.take (i + 1) := by
    rw [htake_succ]
    exact List.mem_append_right _ (List.mem_singleton_self _)
  have himem : bars.get ⟨i, hi⟩ ∈ bars := List.get_mem _ _ _
  have hdrop : ∀ b ∈ bars.drop (i + 1), t < b.ts := by
    have hpw : (bars.take (i + 1) ++ bars.drop (i + 1)).Pairwise
        (fun a b => a.ts < b.ts) := by
      rw [List.take_append_drop]; exact hs
    have hcross := (List.pairwise_append.mp hpw).2.2
    intro b hb
    exact hcross _ hitake b hb
  have hbucket_lt : ∀ b : MtfBar, b.ts / size < K → b ∈ bars →
      b ∈ bars.take (i + 1) := by
    intro b hbk hbmem
    rw [← List.take_append_drop (i + 1) bars] at hbmem
    rcases List.mem_append.mp hbmem with h | h
    · exact h
    · exfalso
      have hle : t ≤ b.ts := le_of_lt (hdrop b h)
      have : K ≤ b.ts / size := hK ▸ Nat.div_le_div_right hle
      omega
  have hbb : ∀ k : ℕ, k < K →
      bucketBars size (bars.take (i + 1)) k = bucketBars size bars k := by
    intro k hk
    unfold bucketBars
    conv_rhs => rw [← List.take_append_drop (i + 1) bars]
    rw [List.filter_append]
    have hnil : (bars.drop (i + 1)).filter (fun b => b.ts / size == k) = [] := by
      rw [List.filter_eq_nil_iff]
      intro b hb
      simp only [beq_iff_eq]
      intro hbk
      have hle : t ≤ b.ts := le_of_lt (hdrop b hb)
      have : K ≤ b.ts / size := hK ▸ Nat.div_le_div_right hle
      omega
    rw [hnil, List.append_nil]
  have hpk : ∀ k ∈ List.range (K + 1),
      presentKey size (bars.take (i + 1)) k = presentKey size bars k := by
    intro k hkr
    have hk : k ≤ K := by
      have := List.mem_range.mp hkr
      omega
    rcases Nat.lt_or_ge k K with hlt | hge
    · unfold presentKey
      apply Bool.eq_iff_iff.mpr
      constructor
      · intro hany
        obtain ⟨b, hb, hpb⟩ := List.any_eq_true.mp hany
        exact List.any_eq_true.mpr ⟨b, List.take_subset _ _ hb, hpb⟩
      · intro hany
        obtain ⟨b, hb, hpb⟩ := List.any_eq_true.mp hany
        have hbk : b.ts / size = k := by simpa using hpb
        exact List.any_eq_true.mpr
          ⟨b, hbucket_lt b (by omega) hb, hpb⟩
    · have hkK : k = K := le_antisymm hk hge
      rw [hkK]
      have h1 : presentKey size (bars.take (i + 1)) K = true :=
        List.any_eq_true.mpr ⟨bars.get ⟨i, hi⟩, hitake, by simp only [beq_iff_eq]⟩
      have h2 : presentKey size bars K = true :=
        List.any_eq_true.mpr ⟨bars.get ⟨i, hi⟩, himem, by simp only [beq_iff_eq]⟩
      rw [h1, h2]
  have hpKtrue : presentKey size bars K = true :=
    List.any_eq_true.mpr ⟨bars.get ⟨i, hi⟩, himem, by simp only [beq_iff_eq]⟩
  have hpre : coarseKeysUpTo size (bars.take (i + 1)) t = coarseKeysUpTo size bars t := by
    unfold coarseKeysUpTo
    rw [← hK]
    exact List.filter_congr hpk
  have hdecomp : coarseKeysUpTo size bars t =
      ((List.range K).filter (presentKey size bars)) ++ [K] := by
    unfold coarseKeysUpTo
    rw [← hK, List.range_succ, List.filter_append]
    congr 1
    simp [hpKtrue]
  have hdrop_last : (coarseKeysUpTo size bars t).dropLast =
      (List.range K).filter (presentKey size bars) := by
    rw [hdecomp, List.dropLast_concat]
  have hmap : ((coarseKeysUpTo size bars t).dropLast).map
        (fun k => resample_agg (bucketBars size (bars.take (i + 1)) k)) =
      ((coarseKeysUpTo size bars t).dropLast).map
        (fun k => resample_agg (bucketBars size bars k)) := by
    rw [hdrop_last]
    apply List.map_congr_left
    intro k hkmem
    have hkK : k < K := List.mem_range.mp (List.mem_filter.mp hkmem).1
    rw [hbb k hkK]
  simp only [merge_mtf_at]
  rw [hpre, hmap]

/-- Witness for merge_mtf_lookahead_free on three bars at times 0, 5, 9 with
bucket size 4 (buckets 0, 1, 2) at the last bar. -/
theorem merge_mtf_lookahead_free_witness :
    mtfDemoBars.Pairwise (fun a b => a.ts < b.ts) ∧
    2 < mtfDemoBars.length ∧
    merge_mtf_at 4 (fun l => l) (mtfDemoBars.take 3)
        (mtfDemoBars.get ⟨2, by norm_num [mtfDemoBars]⟩).ts =
      merge_mtf_at 4 (fun l => l) mtfDemoBars
        (mtfDemoBars.get ⟨2, by norm_num [mtfDemoBars]⟩).ts := by
  have hpw : mtfDemoBars.Pairwise (fun a b => a.ts < b.ts) := by
    unfold mtfDemoBars
    simp [List.pairwise_cons]
  refine ⟨hpw, by norm_num [mtfDemoBars], ?_⟩
  exact merge_mtf_lookahead_free 4 (fun l => l) mtfDemoBars hpw 2
    (by norm_num [mtfDemoBars])

end NqIndi
